import Mathlib

/-!
Verification of `.github/scripts/telegram_notify.py` (eurekapp repository).

The script is a single-shot CI notifier: it reads GitHub event data from
environment variables, renders one of four HTML messages (pull request,
issue, push, workflow run) and performs one Telegram `sendMessage` POST.

Shallow embedding conventions:
* Python strings are Lean `String`s; `os.environ` is `Env := String → Option String`
  (`none` = unset variable).
* Decoded JSON values are the inductive `Json`; `json.loads` is an oracle
  parameter `loads : String → Except String Json` (`Except.error` = the call
  raises `json.JSONDecodeError`, carrying the exception text).
* Python exceptions that the script can raise or catch are the inductive
  `PyErr`; fallible straight-line code is written in the `Except PyErr` monad.
* `sys.exit`/process termination is the `Except EarlyExit` monad in `mainRequest`.
* The single HTTP exchange is an oracle `net : PostBody → HttpResponse`.
-/

namespace TelegramNotify

/-- Decoded JSON values as produced by `json.loads`.  Numbers are modelled as
`Int` (the commit payloads the script handles carry no fractional numbers);
object fields keep their order, and keys are assumed distinct, as `json.loads`
produces a dict (first-match lookup below then agrees with dict lookup). -/
inductive Json where
  | null : Json
  | bool : Bool → Json
  | num : Int → Json
  | str : String → Json
  | arr : List Json → Json
  | obj : List (String × Json) → Json

/-- Python exceptions relevant to the script: `json.JSONDecodeError`,
`KeyError`, `TypeError` (the three caught in `format_push_message`) and
`AttributeError` (raised by `.get`/`.replace` on non-dict/non-str values,
and not caught anywhere in the script). -/
inductive PyErr where
  | jsonDecode : PyErr
  | keyError : PyErr
  | typeError : PyErr
  | attributeError : PyErr
deriving DecidableEq

/-- The exception classes named in the `except (json.JSONDecodeError, KeyError,
TypeError)` clause of `format_push_message`. -/
def PyErr.isCaught : PyErr → Bool
  | .jsonDecode => true
  | .keyError => true
  | .typeError => true
  | .attributeError => false

/-- Python truthiness of a decoded JSON value (`bool(x)`). -/
def pyTruthy : Json → Bool
  | .null => false
  | .bool b => b
  | .num n => n != 0
  | .str s => s != ""
  | .arr xs => !xs.isEmpty
  | .obj fs => !fs.isEmpty

/-- Python truthiness of an `os.getenv` result (`None` and `""` are falsy). -/
def truthy : Option String → Bool
  | none => false
  | some s => s != ""

/-- `commit.get(key, default)`: dict lookup with default; on any non-dict
receiver Python raises `AttributeError` (no `get` attribute). -/
def pyGet (j : Json) (key : String) (dflt : Json) : Except PyErr Json :=
  match j with
  | .obj fields => .ok ((fields.lookup key).getD dflt)
  | _ => .error .attributeError

/-- `v[:n]`: slicing keeps strings and lists, everything else raises
`TypeError` (unsubscriptable, or unhashable slice index for a dict). -/
def pySlice (j : Json) (n : Nat) : Except PyErr Json :=
  match j with
  | .str s => .ok (.str (s.take n))
  | .arr xs => .ok (.arr (xs.take n))
  | _ => .error .typeError

/-- `commits[:10]` followed by `for commit in ...`: a list yields its first 10
elements; a string yields its first 10 characters as 1-character strings;
any other value raises `TypeError` at the slice. -/
def pyTake10 (j : Json) : Except PyErr (List Json) :=
  match j with
  | .arr xs => .ok (xs.take 10)
  | .str s => .ok (((s.take 10).data).map (fun c => Json.str (String.mk [c])))
  | _ => .error .typeError

/-- `v.replace(chr(10), " ")`: defined on strings, `AttributeError` otherwise. -/
def pyReplaceNl (j : Json) : Except PyErr String :=
  match j with
  | .str s => .ok (s.replace "\n" " ")
  | _ => .error .attributeError

/-- One character of `html.escape(s, quote=True)`: `&`, `<`, `>`, `"` and the
apostrophe become entities, all other characters pass through.  Since the five
patterns are single characters and the replacements introduce none of the
later patterns, the sequential `str.replace` calls of `html.escape` coincide
with this character-wise map. -/
def escapeChar (c : Char) : List Char :=
  if c = '&' then ['&', 'a', 'm', 'p', ';']
  else if c = '<' then ['&', 'l', 't', ';']
  else if c = '>' then ['&', 'g', 't', ';']
  else if c = '"' then ['&', 'q', 'u', 'o', 't', ';']
  else if c = Char.ofNat 39 then ['&', '#', 'x', '2', '7', ';']
  else [c]

/-- Character list version of `html.escape`. -/
def escapeList : List Char → List Char
  | [] => []
  | c :: cs => escapeChar c ++ escapeList cs

/-- `html.escape(s)` with the default `quote=True`, as imported by the script. -/
def escape (s : String) : String := String.mk (escapeList s.data)

/-- Hexadecimal digit (lowercase) for `repr` escapes. -/
def hexDigitChar (n : Nat) : Char :=
  if n < 10 then Char.ofNat (48 + n) else Char.ofNat (87 + n)

/-- One character of Python `repr` of a string quoted with `q`: backslash, the
quote, newline, carriage return and tab get two-character escapes, other
control characters a hex escape, the rest pass through. -/
def pyReprCharEsc (q : Char) (c : Char) : List Char :=
  if c = '\\' then ['\\', '\\']
  else if c = q then ['\\', q]
  else if c = '\n' then ['\\', 'n']
  else if c = '\r' then ['\\', 'r']
  else if c = '\t' then ['\\', 't']
  else if c.toNat < 32 ∨ c.toNat = 127 then
    ['\\', 'x', hexDigitChar (c.toNat / 16), hexDigitChar (c.toNat % 16)]
  else [c]

/-- Python `repr` of a string: single-quoted, unless the string contains an
apostrophe but no double quote, in which case double-quoted. -/
def pyReprStr (s : String) : String :=
  let q : Char :=
    if s.data.contains (Char.ofNat 39) ∧ ¬ s.data.contains '"' then '"'
    else Char.ofNat 39
  String.mk ([q] ++ (s.data.map (pyReprCharEsc q)).flatten ++ [q])

mutual

/-- Python `repr` of a decoded JSON value (`str` falls back to this for
non-string values inside f-string interpolation). -/
def pyRepr : Json → String
  | .null => "None"
  | .bool true => "True"
  | .bool false => "False"
  | .num n => toString n
  | .str s => pyReprStr s
  | .arr xs => "[" ++ pyReprSeq xs ++ "]"
  | .obj fs => "\x7b" ++ pyReprFields fs ++ "\x7d"

/-- Comma-separated `repr`s of list elements. -/
def pyReprSeq : List Json → String
  | [] => ""
  | [x] => pyRepr x
  | x :: y :: xs => pyRepr x ++ ", " ++ pyReprSeq (y :: xs)

/-- Comma-separated `key: value` pairs of a dict `repr`. -/
def pyReprFields : List (String × Json) → String
  | [] => ""
  | [(k, v)] => pyReprStr k ++ ": " ++ pyRepr v
  | (k, v) :: f :: fs => pyReprStr k ++ ": " ++ pyRepr v ++ ", " ++ pyReprFields (f :: fs)

end

/-- Python `str(x)` as used by f-string interpolation. -/
def pyStr : Json → String
  | .str s => s
  | .null => pyRepr .null
  | .bool b => pyRepr (.bool b)
  | .num n => pyRepr (.num n)
  | .arr xs => pyRepr (.arr xs)
  | .obj fs => pyRepr (.obj fs)

/-- `html.escape` applied to a dynamic value: `AttributeError` on non-strings
(the first `str.replace` call inside `html.escape` fails). -/
def pyEscapeJ (j : Json) : Except PyErr String :=
  match j with
  | .str s => .ok (escape s)
  | _ => .error .attributeError

/-- `get_pr_status` (telegram_notify.py lines 24-31). -/
def get_pr_status (action : String) (merged : Bool) : String :=
  if action = "closed" ∧ merged = true then "merged"
  else if action = "synchronize" then "updated"
  else action

/-- `format_pr_message` (lines 34-51).  `pr_num` arrives as the environment
string, so `str(pr_num)` is the identity. -/
def format_pr_message (repo actor pr_num pr_title pr_url base_ref head_ref status : String) :
    String :=
  let repo_esc := escape repo
  let actor_esc := escape actor
  let pr_num_esc := escape pr_num
  let pr_title_esc := escape pr_title
  let base_ref_esc := escape base_ref
  let head_ref_esc := escape head_ref
  let status_esc := escape status
  "<b>PR " ++ status_esc ++ ":</b> <a href=\"" ++ pr_url ++ "\">#" ++ pr_num_esc ++
    "</a> — " ++ pr_title_esc ++ "\nRepo: " ++ repo_esc ++ "\nBy: " ++ actor_esc ++
    "\n" ++ head_ref_esc ++ " → " ++ base_ref_esc

/-- `format_issue_message` (lines 54-68). -/
def format_issue_message (repo actor issue_num issue_title issue_url status : String) :
    String :=
  let repo_esc := escape repo
  let actor_esc := escape actor
  let issue_num_esc := escape issue_num
  let issue_title_esc := escape issue_title
  let status_esc := escape status
  "<b>Issue " ++ status_esc ++ ":</b> <a href=\"" ++ issue_url ++ "\">#" ++ issue_num_esc ++
    "</a> — " ++ issue_title_esc ++ "\nRepo: " ++ repo_esc ++ "\nBy: " ++ actor_esc

/-- `format_workflow_message` (lines 110-129). -/
def format_workflow_message (repo actor workflow_name conclusion event_type branch run_url :
    String) : String :=
  let repo_esc := escape repo
  let actor_esc := escape actor
  let workflow_name_esc := escape workflow_name
  let conclusion_esc := escape conclusion
  let event_type_esc := escape event_type
  let branch_esc := escape branch
  "<b>Workflow:</b> " ++ workflow_name_esc ++ "\nRepo: " ++ repo_esc ++
    "\nBranch: " ++ branch_esc ++ "\nBy: " ++ actor_esc ++ "\nEvent: " ++ event_type_esc ++
    "\nStatus: <b>" ++ conclusion_esc ++ "</b>\n<a href=\"" ++ run_url ++ "\">Open run</a>"

/-- The loop body of `format_push_message` (lines 85-94), for one decoded
commit entry, in the source's evaluation order:
`sha7`, `full_sha`, `message`, `author` (with Python `or` fallbacks),
`msg_esc`, `author_esc`, `url`, then the rendered line. -/
def renderCommit (repo : String) (commit : Json) : Except PyErr String := do
  let idv ← pyGet commit "id" (Json.str "")
  let sha7 ← pySlice idv 7
  let full_sha ← pyGet commit "id" (Json.str "")
  let msgv ← pyGet commit "message" (Json.str "")
  let message ← pyReplaceNl msgv
  let author1 ← pyGet commit "author" (Json.obj [])
  let u ← pyGet author1 "username" Json.null
  let author ←
    if pyTruthy u then pure u
    else do
      let author2 ← pyGet commit "author" (Json.obj [])
      let n ← pyGet author2 "name" Json.null
      pure (if pyTruthy n then n else Json.str "unknown")
  let msg_esc := escape message
  let author_esc ← pyEscapeJ author
  let url := "https://github.com/" ++ repo ++ "/commit/" ++ pyStr full_sha
  pure ("- <a href=\"" ++ url ++ "\">" ++ pyStr sha7 ++ "</a> — " ++ msg_esc ++
    " (by " ++ author_esc ++ ")")

/-- The `for commit in commits[:10]` loop: renders each entry in order, and an
exception raised mid-loop discards the partially built list. -/
def renderCommits (repo : String) : List Json → Except PyErr (List String)
  | [] => .ok []
  | c :: cs => do
    let line ← renderCommit repo c
    let rest ← renderCommits repo cs
    pure (line :: rest)

/-- `format_push_message` (lines 71-107).  `commits_data` is the raw
`PUSH_COMMITS` value (`none` = unset); `loads` is the `json.loads` oracle.
`Except.error` output means the function raises an exception that the
`except (json.JSONDecodeError, KeyError, TypeError)` clause does not catch. -/
def format_push_message (repo actor branch : String) (commits_data : Option String)
    (loads : String → Except String Json) : Except PyErr String :=
  let repo_esc := escape repo
  let actor_esc := escape actor
  let branch_esc := escape branch
  let commits_list : Except PyErr (List String) :=
    if truthy commits_data then
      match loads (commits_data.getD "") with
      | .error _ => .ok ["— error parsing commits —"]
      | .ok commits =>
        match pyTake10 commits >>= renderCommits repo with
        | .ok ls => .ok ls
        | .error e => if e.isCaught then .ok ["— error parsing commits —"] else .error e
    else .ok []
  match commits_list with
  | .error e => .error e
  | .ok ls =>
    let ls := if ls.isEmpty then ["— no commit messages —"] else ls
    .ok (actor_esc ++ " just pushed to branch " ++ branch_esc ++ " of " ++ repo_esc ++
      ":\n" ++ String.intercalate "\n" ls)

/-- Python `int(s)` on a string: optional surrounding whitespace, optional
sign, then a nonempty run of decimal digits in which single underscores may
appear between digits.  `validDigits` strips the underscores while checking
that each one is followed by a digit and none is trailing; `pyIntParse`
additionally rejects a leading underscore and an empty digit run.
(CPython also accepts non-ASCII digits and Unicode whitespace; the script
only ever receives ASCII thread identifiers.) -/
def validDigits : List Char → Option (List Char)
  | [] => some []
  | '_' :: c :: cs => if c.isDigit then (validDigits cs).map (fun ds => c :: ds) else none
  | ['_'] => none
  | c :: cs => if c.isDigit then (validDigits cs).map (fun ds => c :: ds) else none

/-- Value of a digit run. -/
def digitsToNat (ds : List Char) : Nat :=
  ds.foldl (fun acc c => acc * 10 + (c.toNat - 48)) 0

/-- Python's `str.strip()` whitespace (ASCII part): space, tab, newline,
carriage return, vertical tab, form feed. -/
def pySpace (c : Char) : Bool :=
  c == ' ' || c == '\t' || c == '\n' || c == '\r' || c == Char.ofNat 11 || c == Char.ofNat 12

/-- Python `int(s)`: `some n` on success, `none` when `int` raises `ValueError`. -/
def pyIntParse (s : String) : Option Int :=
  let t := ((s.data.dropWhile pySpace).reverse.dropWhile pySpace).reverse
  let signRest : Int × List Char :=
    match t with
    | '+' :: r => (1, r)
    | '-' :: r => (-1, r)
    | r => (1, r)
  match signRest.2 with
  | [] => none
  | c :: cs =>
    if c.isDigit then
      match validDigits (c :: cs) with
      | some ds => some (signRest.1 * (digitsToNat ds : Int))
      | none => none
    else none

/-- The `message_thread_id` value: `int(thread_id)` when it parses, the raw
string otherwise (lines 143-148). -/
inductive ThreadVal where
  | int : Int → ThreadVal
  | str : String → ThreadVal
deriving DecidableEq

/-- The form-encoded POST body built by `send_telegram_message`
(lines 136-148): `chat_id`, `text`, `parse_mode`, and `message_thread_id`
only when a truthy thread identifier was supplied. -/
structure PostBody where
  chat_id : String
  text : String
  parse_mode : String
  message_thread_id : Option ThreadVal
deriving DecidableEq

/-- Lines 136-148 of `send_telegram_message`: the request body.  `thread_id`
is the raw `TELEGRAM_THREAD_ID` value (`none` = unset); `if thread_id:` skips
falsy values, then `int(thread_id)` is attempted with a string fallback. -/
def telegram_post_body (chat_id message : String) (thread_id : Option String) : PostBody :=
  ⟨chat_id, message, "HTML",
    match thread_id with
    | none => none
    | some t =>
      if t = "" then none
      else some (match pyIntParse t with
        | some n => ThreadVal.int n
        | none => ThreadVal.str t)⟩

/-- Outcome of the one `urllib.request.urlopen` exchange: either the request
(or reading/decoding its response) raises an exception with the given text,
or it yields a response body string. -/
inductive HttpResponse where
  | exn : String → HttpResponse
  | body : String → HttpResponse

/-- The diagnostic printed when delivery fails: the API response's
`description` field (default `"Unknown error"`), or a caught exception —
either one with a known text (transport error, `json.loads` failure) or the
`AttributeError` raised by `result.get` when the decoded response is not a
dict. -/
inductive Diag where
  | apiDescription : Json → Diag
  | exceptionText : String → Diag
  | attributeErrorCaught : Diag

/-- Result of `send_telegram_message`: the POST body it sent, the boolean it
returns, and the failure diagnostic it prints (if any). -/
structure SendOutcome where
  requestBody : PostBody
  success : Bool
  diag : Option Diag

/-- `send_telegram_message` (lines 132-168).  `net` is the single HTTP
exchange; `loads` decodes the response body.  The `try` block catches every
exception (`except Exception`), so the function always returns a boolean:
a transport exception, an undecodable body, a non-dict decoded value
(`result.get` raises `AttributeError`, caught) and a response without a
truthy `"ok"` field all yield `success = false`. -/
def send_telegram_message (_bot_token chat_id message : String) (thread_id : Option String)
    (loads : String → Except String Json) (net : PostBody → HttpResponse) : SendOutcome :=
  let data := telegram_post_body chat_id message thread_id
  match net data with
  | .exn m => ⟨data, false, some (.exceptionText m)⟩
  | .body s =>
    match loads s with
    | .error m => ⟨data, false, some (.exceptionText m)⟩
    | .ok (.obj fields) =>
      if pyTruthy ((fields.lookup "ok").getD Json.null) then ⟨data, true, none⟩
      else ⟨data, false,
        some (.apiDescription ((fields.lookup "description").getD (Json.str "Unknown error")))⟩
    | .ok _ => ⟨data, false, some .attributeErrorCaught⟩

/-- The process environment: `os.getenv` semantics (`none` = unset). -/
def Env : Type := String → Option String

/-- Point update of an environment, used to compare a variable set to the
empty string with the same variable unset. -/
def updateEnv (env : Env) (name : String) (v : Option String) : Env :=
  fun n => if n = name then v else env n

/-- The ways `main` terminates before the HTTP call: `get_env_var` exits on a
required variable that is unset or empty (lines 15-21); no classifier branch
matches (lines 226-228); or `format_push_message` raises an exception no
handler catches, aborting the interpreter. -/
inductive EarlyExit where
  | missingVar : String → EarlyExit
  | unknownEvent : EarlyExit
  | pyCrash : PyErr → EarlyExit
deriving DecidableEq

/-- `get_env_var(name)` with `required=True`: returns the value, or exits when
it is unset or empty (`if required and not value`). -/
def getRequired (env : Env) (name : String) : Except EarlyExit String :=
  match env name with
  | some s => if s = "" then .error (.missingVar name) else .ok s
  | none => .error (.missingVar name)

/-- The four event kinds of the `elif` chain in `main`. -/
inductive EventKind where
  | pr : EventKind
  | issue : EventKind
  | push : EventKind
  | workflow : EventKind
deriving DecidableEq

/-- The event classification of `main` (lines 187-228): the `elif` chain on
`EVENT_TYPE` and the presence (truthiness) of the per-event variable, first
match winning; `none` = the final `else` branch (unknown event). -/
def classify (env : Env) : Option EventKind :=
  let event_type := env "EVENT_TYPE"
  if event_type = some "pull_request" ∨ truthy (env "PR_NUMBER") = true then some .pr
  else if event_type = some "issues" ∨ truthy (env "ISSUE_NUMBER") = true then some .issue
  else if event_type = some "push" ∨ truthy (env "PUSH_BRANCH") = true then some .push
  else if event_type = some "workflow_run" ∨ truthy (env "WORKFLOW_NAME") = true then
    some .workflow
  else none

/-- `get_env_var(name, required=False) or default` (lines 220-222). -/
def orDefault (v : Option String) (d : String) : String :=
  match v with
  | some s => if s = "" then d else s
  | none => d

/-- The data `main` hands to `send_telegram_message`. -/
structure Request where
  bot_token : String
  chat_id : String
  message : String
  thread_id : Option String

/-- `main` (lines 171-228) up to — but not including — the HTTP call: reads
the required and optional variables in source order, selects the event branch
(the `elif` chain is factored through `classify`, whose conditions are
exactly the source's), formats the message, and either produces the `Request`
for `send_telegram_message` or terminates early. -/
def mainRequest (env : Env) (loads : String → Except String Json) :
    Except EarlyExit Request := do
  let bot_token ← getRequired env "TELEGRAM_BOT_TOKEN"
  let chat_id ← getRequired env "TELEGRAM_CHAT_ID"
  let thread_id := env "TELEGRAM_THREAD_ID"
  let repo ← getRequired env "GITHUB_REPOSITORY"
  let actor ← getRequired env "GITHUB_ACTOR"
  match classify env with
  | some .pr => do
    let pr_num ← getRequired env "PR_NUMBER"
    let pr_title ← getRequired env "PR_TITLE"
    let pr_url ← getRequired env "PR_URL"
    let base_ref ← getRequired env "BASE_REF"
    let head_ref ← getRequired env "HEAD_REF"
    let action ← getRequired env "PR_ACTION"
    let merged := env "PR_MERGED" = some "true"
    let status := get_pr_status action merged
    pure ⟨bot_token, chat_id,
      format_pr_message repo actor pr_num pr_title pr_url base_ref head_ref status, thread_id⟩
  | some .issue => do
    let issue_num ← getRequired env "ISSUE_NUMBER"
    let issue_title ← getRequired env "ISSUE_TITLE"
    let issue_url ← getRequired env "ISSUE_URL"
    let status ← getRequired env "ISSUE_ACTION"
    pure ⟨bot_token, chat_id,
      format_issue_message repo actor issue_num issue_title issue_url status, thread_id⟩
  | some .push => do
    let branch ← getRequired env "PUSH_BRANCH"
    let commits_data := env "PUSH_COMMITS"
    match format_push_message repo actor branch commits_data loads with
    | .ok message => pure ⟨bot_token, chat_id, message, thread_id⟩
    | .error e => .error (.pyCrash e)
  | some .workflow => do
    let workflow_name ← getRequired env "WORKFLOW_NAME"
    let conclusion ← getRequired env "WORKFLOW_CONCLUSION"
    let workflow_event := orDefault (env "WORKFLOW_EVENT") "unknown"
    let branch := orDefault (env "WORKFLOW_BRANCH") "unknown"
    let run_url := orDefault (env "WORKFLOW_URL") "#"
    pure ⟨bot_token, chat_id,
      format_workflow_message repo actor workflow_name conclusion workflow_event branch run_url,
      thread_id⟩
  | none => .error .unknownEvent

/-- Observable outcome of one whole process run: the exit code, and whether
the HTTP exchange was attempted. -/
structure RunResult where
  exitCode : Nat
  httpAttempted : Bool
deriving DecidableEq

/-- The whole script run: an early exit (including an uncaught exception,
which makes the interpreter exit with status 1) never reaches the network;
otherwise exactly one `send_telegram_message` call decides the exit code
(lines 230-234). -/
def mainRun (env : Env) (loads : String → Except String Json)
    (net : PostBody → HttpResponse) : RunResult :=
  match mainRequest env loads with
  | .error _ => ⟨1, false⟩
  | .ok req =>
    let out := send_telegram_message req.bot_token req.chat_id req.message req.thread_id
      loads net
    ⟨if out.success then 0 else 1, true⟩

/-- The fields of one well-formed commit entry of the `PUSH_COMMITS` payload,
as the spec describes them (4.5): optional string `id`, optional string
`message`, optional `author.username` / `author.name` strings. -/
structure CommitFields where
  id : Option String
  message : Option String
  username : Option String
  name : Option String
deriving DecidableEq

/-- An optional JSON object field: present with a string value, or omitted. -/
def optField (k : String) (v : Option String) : List (String × Json) :=
  match v with
  | some s => [(k, Json.str s)]
  | none => []

/-- The JSON object for a well-formed commit entry built from its fields. -/
def commitOfFields (f : CommitFields) : Json :=
  Json.obj (optField "id" f.id ++ optField "message" f.message ++
    [("author", Json.obj (optField "username" f.username ++ optField "name" f.name))])

/-- Modelled from the spec: the `author.name`-or-"unknown" fallback of 4.5
step 3 (a present-but-empty value is falsy, so it also falls through,
matching Python `or`). -/
def specAuthorFromName : Option String → String
  | some n => if n != "" then n else "unknown"
  | none => "unknown"

/-- Modelled from the spec: the author rule of 4.5 step 3 —
`author.username`, else `author.name`, else the literal `"unknown"`. -/
def specAuthor (f : CommitFields) : String :=
  match f.username with
  | some u => if u != "" then u else specAuthorFromName f.name
  | none => specAuthorFromName f.name

/-- Modelled from the spec: one rendered commit line of 4.5 step 3 —
short SHA is the first 7 characters of `id` (empty when absent), the message
has newlines replaced by spaces, the link target is
`https://github.com/{repo}/commit/{full_id}`, and the line reads
`- {link} — {escaped message} (by {escaped author})`. -/
def specCommitLine (repo : String) (f : CommitFields) : String :=
  let fullId := f.id.getD ""
  let url := "https://github.com/" ++ repo ++ "/commit/" ++ fullId
  "- <a href=\"" ++ url ++ "\">" ++ fullId.take 7 ++ "</a> — " ++
    escape ((f.message.getD "").replace "\n" " ") ++ " (by " ++ escape (specAuthor f) ++ ")"

/-- No character of the list is a raw `<`, `>` or `"`. -/
def noRawSpecials (cs : List Char) : Bool :=
  cs.all (fun d => !(d == '<') && !(d == '>') && !(d == '"'))

/-- The first condition of the `elif` chain (line 187). -/
def prCond (env : Env) : Prop :=
  env "EVENT_TYPE" = some "pull_request" ∨ truthy (env "PR_NUMBER") = true

/-- The second condition of the `elif` chain (line 200). -/
def issueCond (env : Env) : Prop :=
  env "EVENT_TYPE" = some "issues" ∨ truthy (env "ISSUE_NUMBER") = true

/-- The third condition of the `elif` chain (line 209). -/
def pushCond (env : Env) : Prop :=
  env "EVENT_TYPE" = some "push" ∨ truthy (env "PUSH_BRANCH") = true

/-- The fourth condition of the `elif` chain (line 216). -/
def workflowCond (env : Env) : Prop :=
  env "EVENT_TYPE" = some "workflow_run" ∨ truthy (env "WORKFLOW_NAME") = true

/-- A sample well-formed commit entry, indexed so entries are distinct. -/
def sampleCommit (k : Nat) : CommitFields :=
  ⟨some (toString k ++ "abcdef12345"), some ("msg " ++ toString k), some "alice", none⟩

/-- Fifteen well-formed commit entries, for the truncation witness. -/
def sampleCommits15 : List CommitFields :=
  (List.range 15).map sampleCommit

/-- A complete environment for an issue event, used to exercise a successful
delivery end to end. -/
def sampleIssueEnv : Env := fun n =>
  if n = "TELEGRAM_BOT_TOKEN" then some "B"
  else if n = "TELEGRAM_CHAT_ID" then some "C"
  else if n = "GITHUB_REPOSITORY" then some "octo/repo"
  else if n = "GITHUB_ACTOR" then some "alice"
  else if n = "ISSUE_NUMBER" then some "5"
  else if n = "ISSUE_TITLE" then some "T"
  else if n = "ISSUE_URL" then some "http://u"
  else if n = "ISSUE_ACTION" then some "opened"
  else none

/-- A `json.loads` oracle that decodes every body to `{"ok": true}`. -/
def loadsOkTrue : String → Except String Json :=
  fun _ => Except.ok (Json.obj [("ok", Json.bool true)])

/-- A network oracle that answers every request with a body. -/
def netRespBody : PostBody → HttpResponse := fun _ => HttpResponse.body "resp"

/-! ### Helper lemmas -/

theorem intercalate_singleton (s x : String) : String.intercalate s [x] = x := rfl

theorem escapeChar_noRaw (c : Char) : noRawSpecials (escapeChar c) = true := by
  unfold escapeChar
  split
  · decide
  · split
    · decide
    · split
      · decide
      · split
        · decide
        · split
          · decide
          · rename_i h1 h2 h3 h4 h5
            simp [noRawSpecials, h2, h3, h4]

theorem escapeList_noRaw (cs : List Char) : noRawSpecials (escapeList cs) = true := by
  induction cs with
  | nil => decide
  | cons c cs ih =>
    have h := escapeChar_noRaw c
    simp only [noRawSpecials, escapeList, List.all_append] at *
    simp [h, ih]

theorem escape_data (s : String) : (escape s).data = escapeList s.data := rfl

theorem pyEscapeJ_str (s : String) : pyEscapeJ (Json.str s) = Except.ok (escape s) := rfl

theorem pyEscapeJ_ite (c : Prop) [Decidable c] (a b : String) :
    pyEscapeJ (if c then Json.str a else Json.str b) =
      Except.ok (escape (if c then a else b)) := by
  split <;> rfl

theorem renderCommit_fields (repo : String) (f : CommitFields) :
    renderCommit repo (commitOfFields f) = Except.ok (specCommitLine repo f) := by
  obtain ⟨fid, fmsg, fu, fn⟩ := f
  cases fid <;> cases fmsg <;> cases fu <;> cases fn <;>
    (simp [renderCommit, commitOfFields, optField, pyGet, pySlice, pyReplaceNl,
      pyEscapeJ_str, pyEscapeJ_ite, pyTruthy, pyStr, specCommitLine, specAuthor,
      specAuthorFromName, List.lookup, bind, Except.bind, pure, Except.pure] <;>
     try (split <;> simp [pyEscapeJ_str, pyEscapeJ_ite]))

theorem renderCommits_fields (repo : String) (gs : List CommitFields) :
    renderCommits repo (gs.map commitOfFields) = Except.ok (gs.map (specCommitLine repo)) := by
  induction gs with
  | nil => rfl
  | cons g gs ih =>
    simp [renderCommits, renderCommit_fields repo g, ih, bind, Except.bind, pure, Except.pure]

/-! ### Claim theorems -/

/-- C5: the PR status derivation returns `"merged"` for action `"closed"` with
the merged flag set, `"updated"` for action `"synchronize"`, and the action
string verbatim otherwise (in particular `"opened"` passes through and
`"closed"` without the merged flag stays `"closed"`). -/
theorem c5_pr_status_derivation :
    (∀ (a : String) (m : Bool), a = "closed" → m = true → get_pr_status a m = "merged") ∧
    (∀ (a : String) (m : Bool), a = "synchronize" → get_pr_status a m = "updated") ∧
    (∀ (a : String) (m : Bool), ¬ (a = "closed" ∧ m = true) → a ≠ "synchronize" →
      get_pr_status a m = a) := by
  refine ⟨?_, ?_, ?_⟩
  · intro a m ha hm
    simp [get_pr_status, ha, hm]
  · intro a m ha
    subst ha
    simp [get_pr_status]
  · intro a m h1 h2
    simp [get_pr_status, h1, h2]

theorem c5_pr_status_derivation_witness :
    get_pr_status "closed" true = "merged" ∧
    get_pr_status "synchronize" false = "updated" ∧
    get_pr_status "opened" false = "opened" ∧
    get_pr_status "closed" false = "closed" :=
  ⟨c5_pr_status_derivation.1 "closed" true rfl rfl,
   c5_pr_status_derivation.2.1 "synchronize" false rfl,
   c5_pr_status_derivation.2.2 "opened" false (by simp) (by decide),
   c5_pr_status_derivation.2.2 "closed" false (by simp) (by decide)⟩

/-- C9: a truthy thread identifier is put into the POST body as
`message_thread_id`, coerced to an integer when `int()` accepts it and sent
as the original string otherwise; with no thread identifier the field is
omitted.  (An identifier set to the empty string is falsy in Python and is
treated as absent, consistently with the rest of the script.) -/
theorem c9_thread_id_coercion :
    (∀ (chat msg t : String) (n : Int), t ≠ "" → pyIntParse t = some n →
      (telegram_post_body chat msg (some t)).message_thread_id = some (ThreadVal.int n)) ∧
    (∀ chat msg t : String, t ≠ "" → pyIntParse t = none →
      (telegram_post_body chat msg (some t)).message_thread_id = some (ThreadVal.str t)) ∧
    (∀ chat msg : String, (telegram_post_body chat msg none).message_thread_id = none) := by
  refine ⟨?_, ?_, ?_⟩
  · intro chat msg t n ht hp
    simp [telegram_post_body, ht, hp]
  · intro chat msg t ht hp
    simp [telegram_post_body, ht, hp]
  · intro chat msg
    rfl

theorem c9_thread_id_coercion_witness :
    (telegram_post_body "chat" "msg" (some "123")).message_thread_id =
      some (ThreadVal.int 123) ∧
    (telegram_post_body "chat" "msg" (some "topicA")).message_thread_id =
      some (ThreadVal.str "topicA") ∧
    (telegram_post_body "chat" "msg" none).message_thread_id = none :=
  ⟨c9_thread_id_coercion.1 "chat" "msg" "123" 123 (by decide) (by decide),
   c9_thread_id_coercion.2.1 "chat" "msg" "topicA" (by decide) (by decide),
   c9_thread_id_coercion.2.2 "chat" "msg"⟩

/-- C4 (code bug): the claim says any shape mismatch in the decoded commits
JSON is recovered as a parse failure without aborting.  The code's except
clause catches only `json.JSONDecodeError`, `KeyError` and `TypeError`; a
commit entry that is not an object (here the payload `[1]`) makes
`commit.get` raise `AttributeError`, which no handler catches, so the push
formatter aborts the run instead of degrading to the sentinel line. -/
theorem c4_nonobject_commit_raises :
    format_push_message "octocat/hello" "alice" "main" (some "[1]")
      (fun _ => Except.ok (Json.arr [Json.num 1])) =
      Except.error PyErr.attributeError := by
  rfl

/-- C3 counterexample: with the commits payload absent, the claim requires
the parse-failure sentinel `— error parsing commits —`, but the code never
enters the parse (`if commits_data:` is false), leaves the line list empty
and substitutes `— no commit messages —`. -/
theorem c3_absent_payload_counterexample :
    format_push_message "octocat/hello" "alice" "main" none (fun s => Except.error s) =
      Except.ok "alice just pushed to branch main of octocat/hello:\n— no commit messages —" ∧
    "alice just pushed to branch main of octocat/hello:\n— no commit messages —" ≠
      "alice just pushed to branch main of octocat/hello:\n— error parsing commits —" :=
  ⟨by rfl, by decide⟩

/-- C1: in all four formatters, every free-text field (repository, actor,
title, branch names, status, commit message, commit author, workflow name,
conclusion, event type) is rendered through `html.escape` in every text span,
while the URL fields (PR, issue, run and commit URLs) go into their `href`
attributes unchanged; moreover `escape` maps `&`, `<`, `>`, `"` to their
entities and its output contains no raw `<`, `>` or `"`. -/
theorem c1_html_escaping :
    (∀ repo actor pr_num pr_title pr_url base_ref head_ref status : String,
      format_pr_message repo actor pr_num pr_title pr_url base_ref head_ref status =
        "<b>PR " ++ escape status ++ ":</b> <a href=\"" ++ pr_url ++ "\">#" ++
          escape pr_num ++ "</a> — " ++ escape pr_title ++ "\nRepo: " ++ escape repo ++
          "\nBy: " ++ escape actor ++ "\n" ++ escape head_ref ++ " → " ++ escape base_ref) ∧
    (∀ repo actor issue_num issue_title issue_url status : String,
      format_issue_message repo actor issue_num issue_title issue_url status =
        "<b>Issue " ++ escape status ++ ":</b> <a href=\"" ++ issue_url ++ "\">#" ++
          escape issue_num ++ "</a> — " ++ escape issue_title ++ "\nRepo: " ++ escape repo ++
          "\nBy: " ++ escape actor) ∧
    (∀ repo actor workflow_name conclusion event_type branch run_url : String,
      format_workflow_message repo actor workflow_name conclusion event_type branch run_url =
        "<b>Workflow:</b> " ++ escape workflow_name ++ "\nRepo: " ++ escape repo ++
          "\nBranch: " ++ escape branch ++ "\nBy: " ++ escape actor ++ "\nEvent: " ++
          escape event_type ++ "\nStatus: <b>" ++ escape conclusion ++
          "</b>\n<a href=\"" ++ run_url ++ "\">Open run</a>") ∧
    (∀ (repo actor branch : String) (cd : Option String)
        (loads : String → Except String Json) (r : String),
      format_push_message repo actor branch cd loads = Except.ok r →
      ∃ rest, r = escape actor ++ " just pushed to branch " ++ escape branch ++ " of " ++
        escape repo ++ ":\n" ++ rest) ∧
    (∀ (repo : String) (f : CommitFields),
      renderCommit repo (commitOfFields f) = Except.ok (specCommitLine repo f)) ∧
    (escape "&" = "&amp;" ∧ escape "<" = "&lt;" ∧ escape ">" = "&gt;" ∧
      escape "\"" = "&quot;") ∧
    (∀ s : String, ∀ c ∈ (escape s).data, c ≠ '<' ∧ c ≠ '>' ∧ c ≠ '"') := by
  refine ⟨?_, ?_, ?_, ?_, renderCommit_fields, by decide, ?_⟩
  · intro repo actor pr_num pr_title pr_url base_ref head_ref status
    rfl
  · intro repo actor issue_num issue_title issue_url status
    rfl
  · intro repo actor workflow_name conclusion event_type branch run_url
    rfl
  · intro repo actor branch cd loads r h
    simp only [format_push_message] at h
    split at h
    · exact Except.noConfusion h
    · exact ⟨_, (Except.ok.inj h).symm⟩
  · intro s c hc
    have h := escapeList_noRaw s.data
    rw [noRawSpecials, List.all_eq_true] at h
    have h2 := h c (by rwa [escape_data] at hc)
    simp only [Bool.and_eq_true, Bool.not_eq_true', beq_eq_false_iff_ne] at h2
    exact ⟨h2.1.1, h2.1.2, h2.2⟩

theorem c1_html_escaping_witness :
    (∃ rest,
      "a&amp;b just pushed to branch main of octocat/hello:\n— no commit messages —" =
        escape "a&b" ++ " just pushed to branch " ++ escape "main" ++ " of " ++
          escape "octocat/hello" ++ ":\n" ++ rest) ∧
    ('x' ≠ '<' ∧ 'x' ≠ '>' ∧ 'x' ≠ '"') :=
  ⟨c1_html_escaping.2.2.2.1 "octocat/hello" "a&b" "main" none (fun s => Except.error s)
      "a&amp;b just pushed to branch main of octocat/hello:\n— no commit messages —"
      (by rfl),
   c1_html_escaping.2.2.2.2.2.2 "x<y" 'x' (by decide)⟩

theorem mainRequest_error_of_classify_none (env : Env) (loads : String → Except String Json)
    (h : classify env = none) : ∃ e, mainRequest env loads = Except.error e := by
  cases h1 : getRequired env "TELEGRAM_BOT_TOKEN" with
  | error e => exact ⟨e, by simp [mainRequest, h1, bind, Except.bind]⟩
  | ok v1 =>
    cases h2 : getRequired env "TELEGRAM_CHAT_ID" with
    | error e => exact ⟨e, by simp [mainRequest, h1, h2, bind, Except.bind]⟩
    | ok v2 =>
      cases h3 : getRequired env "GITHUB_REPOSITORY" with
      | error e => exact ⟨e, by simp [mainRequest, h1, h2, h3, bind, Except.bind]⟩
      | ok v3 =>
        cases h4 : getRequired env "GITHUB_ACTOR" with
        | error e => exact ⟨e, by simp [mainRequest, h1, h2, h3, h4, bind, Except.bind]⟩
        | ok v4 =>
          exact ⟨EarlyExit.unknownEvent,
            by simp [mainRequest, h1, h2, h3, h4, h, bind, Except.bind]⟩

/-- C2: the event kind is decided by the `elif` chain with first match
winning — pull request, then issue, then push, then workflow run, each
selected when `EVENT_TYPE` equals its tag or its presence variable is truthy;
when nothing matches, classification yields no kind and the whole run exits
with code 1 without attempting the HTTP call.  At most one kind is selected
by construction (`classify` is a function into `Option EventKind`). -/
theorem c2_classifier_precedence :
    (∀ env : Env, prCond env → classify env = some EventKind.pr) ∧
    (∀ env : Env, ¬ prCond env → issueCond env → classify env = some EventKind.issue) ∧
    (∀ env : Env, ¬ prCond env → ¬ issueCond env → pushCond env →
      classify env = some EventKind.push) ∧
    (∀ env : Env, ¬ prCond env → ¬ issueCond env → ¬ pushCond env → workflowCond env →
      classify env = some EventKind.workflow) ∧
    (∀ env : Env, ¬ prCond env → ¬ issueCond env → ¬ pushCond env → ¬ workflowCond env →
      classify env = none) ∧
    (∀ (env : Env) (loads : String → Except String Json) (net : PostBody → HttpResponse),
      classify env = none → mainRun env loads net = ⟨1, false⟩) := by
  refine ⟨?_, ?_, ?_, ?_, ?_, ?_⟩
  · intro env h
    unfold prCond at h
    simp only [classify]
    rw [if_pos h]
  · intro env h1 h2
    unfold prCond at h1
    unfold issueCond at h2
    simp only [classify]
    rw [if_neg h1, if_pos h2]
  · intro env h1 h2 h3
    unfold prCond at h1
    unfold issueCond at h2
    unfold pushCond at h3
    simp only [classify]
    rw [if_neg h1, if_neg h2, if_pos h3]
  · intro env h1 h2 h3 h4
    unfold prCond at h1
    unfold issueCond at h2
    unfold pushCond at h3
    unfold workflowCond at h4
    simp only [classify]
    rw [if_neg h1, if_neg h2, if_neg h3, if_pos h4]
  · intro env h1 h2 h3 h4
    unfold prCond at h1
    unfold issueCond at h2
    unfold pushCond at h3
    unfold workflowCond at h4
    simp only [classify]
    rw [if_neg h1, if_neg h2, if_neg h3, if_neg h4]
  · intro env loads net h
    obtain ⟨e, he⟩ := mainRequest_error_of_classify_none env loads h
    simp [mainRun, he]

theorem c2_classifier_precedence_witness :
    classify (fun n => if n = "PR_NUMBER" then some "7" else none) = some EventKind.pr ∧
    mainRun (fun _ => none) (fun s => Except.error s) (fun _ => HttpResponse.exn "down") =
      ⟨1, false⟩ :=
  ⟨c2_classifier_precedence.1 (fun n => if n = "PR_NUMBER" then some "7" else none)
      (Or.inr (by decide)),
   c2_classifier_precedence.2.2.2.2.2 (fun _ => none) (fun s => Except.error s)
      (fun _ => HttpResponse.exn "down") (by decide)⟩

/-- C3 (amended): an absent or empty commits payload skips parsing entirely
and yields the sentinel `— no commit messages —` (not the parse-failure
sentinel).  The sentinel `— error parsing commits —` appears exactly when the
payload is present (truthy) and `json.loads` raises, or the decoded value or
its first ten entries raise an error the except clause catches
(`TypeError`/`KeyError`).  A successfully parsed empty list also yields
`— no commit messages —`. -/
theorem c3_sentinel_selection :
    ∀ (repo actor branch : String) (loads : String → Except String Json),
      (format_push_message repo actor branch none loads =
        Except.ok (escape actor ++ " just pushed to branch " ++ escape branch ++ " of " ++
          escape repo ++ ":\n" ++ "— no commit messages —")) ∧
      (format_push_message repo actor branch (some "") loads =
        Except.ok (escape actor ++ " just pushed to branch " ++ escape branch ++ " of " ++
          escape repo ++ ":\n" ++ "— no commit messages —")) ∧
      (∀ s m : String, s ≠ "" → loads s = Except.error m →
        format_push_message repo actor branch (some s) loads =
          Except.ok (escape actor ++ " just pushed to branch " ++ escape branch ++ " of " ++
            escape repo ++ ":\n" ++ "— error parsing commits —")) ∧
      (∀ (s : String) (j : Json) (e : PyErr), s ≠ "" → loads s = Except.ok j →
        pyTake10 j >>= renderCommits repo = Except.error e → e.isCaught = true →
        format_push_message repo actor branch (some s) loads =
          Except.ok (escape actor ++ " just pushed to branch " ++ escape branch ++ " of " ++
            escape repo ++ ":\n" ++ "— error parsing commits —")) ∧
      (∀ s : String, s ≠ "" → loads s = Except.ok (Json.arr []) →
        format_push_message repo actor branch (some s) loads =
          Except.ok (escape actor ++ " just pushed to branch " ++ escape branch ++ " of " ++
            escape repo ++ ":\n" ++ "— no commit messages —")) := by
  intro repo actor branch loads
  refine ⟨rfl, rfl, ?_, ?_, ?_⟩
  · intro s m hs hl
    simp [format_push_message, truthy, hs, hl, intercalate_singleton]
  · intro s j e hs hl hproc hc
    simp [format_push_message, truthy, hs, hl, hproc, hc, intercalate_singleton]
  · intro s hs hl
    simp [format_push_message, truthy, hs, hl, pyTake10, renderCommits,
      bind, Except.bind, intercalate_singleton]

theorem c3_sentinel_selection_witness :
    format_push_message "octocat/hello" "bob" "dev" (some "notjson")
        (fun s => Except.error s) =
      Except.ok (escape "bob" ++ " just pushed to branch " ++ escape "dev" ++ " of " ++
        escape "octocat/hello" ++ ":\n" ++ "— error parsing commits —") ∧
    format_push_message "octocat/hello" "bob" "dev" (some "[]")
        (fun _ => Except.ok (Json.arr [])) =
      Except.ok (escape "bob" ++ " just pushed to branch " ++ escape "dev" ++ " of " ++
        escape "octocat/hello" ++ ":\n" ++ "— no commit messages —") :=
  ⟨(c3_sentinel_selection "octocat/hello" "bob" "dev" (fun s => Except.error s)).2.2.1
      "notjson" "notjson" (by decide) rfl,
   (c3_sentinel_selection "octocat/hello" "bob" "dev"
      (fun _ => Except.ok (Json.arr []))).2.2.2.2 "[]" (by decide) rfl⟩

/-- C6: on a successfully parsed list of well-formed commit entries, the push
formatter renders exactly the first 10 entries in original order, each line
carrying the 7-character short SHA (empty when `id` is absent), the message
with newlines flattened to spaces, the `username`-else-`name`-else-"unknown"
author, and the raw commit URL `https://github.com/{repo}/commit/{full_id}`,
in the form `- {link} — {escaped message} (by {escaped author})`. -/
theorem c6_push_commit_rendering :
    ∀ (repo actor branch s : String) (loads : String → Except String Json)
      (fs : List CommitFields),
      s ≠ "" → loads s = Except.ok (Json.arr (fs.map commitOfFields)) → fs ≠ [] →
      format_push_message repo actor branch (some s) loads =
        Except.ok (escape actor ++ " just pushed to branch " ++ escape branch ++ " of " ++
          escape repo ++ ":\n" ++
          String.intercalate "\n" ((fs.take 10).map (specCommitLine repo))) ∧
      ((fs.take 10).map (specCommitLine repo)).length = min 10 fs.length := by
  intro repo actor branch s loads fs hs hl hfs
  have hmap : (fs.map commitOfFields).take 10 = (fs.take 10).map commitOfFields :=
    (List.map_take _ _ _).symm
  have hne : ((fs.take 10).map (specCommitLine repo)).isEmpty = false := by
    rw [List.isEmpty_eq_false]
    simpa using hfs
  have htake : pyTake10 (Json.arr (fs.map commitOfFields)) =
      Except.ok ((fs.take 10).map commitOfFields) := by
    simp only [pyTake10]
    rw [hmap]
  have hproc : pyTake10 (Json.arr (fs.map commitOfFields)) >>= renderCommits repo =
      Except.ok ((fs.take 10).map (specCommitLine repo)) := by
    rw [htake]
    simp only [bind, Except.bind]
    exact renderCommits_fields repo (fs.take 10)
  constructor
  · simp [format_push_message, truthy, hs, hl, hproc, hne, hfs]
  · simp [List.length_take]

theorem c6_push_commit_rendering_witness :
    format_push_message "octo/repo" "alice" "main" (some "payload15")
        (fun _ => Except.ok (Json.arr (sampleCommits15.map commitOfFields))) =
      Except.ok (escape "alice" ++ " just pushed to branch " ++ escape "main" ++ " of " ++
        escape "octo/repo" ++ ":\n" ++
        String.intercalate "\n" ((sampleCommits15.take 10).map (specCommitLine "octo/repo"))) ∧
    ((sampleCommits15.take 10).map (specCommitLine "octo/repo")).length = 10 := by
  have h := c6_push_commit_rendering "octo/repo" "alice" "main" "payload15"
    (fun _ => Except.ok (Json.arr (sampleCommits15.map commitOfFields))) sampleCommits15
    (by decide) rfl (by decide)
  exact ⟨h.1, h.2.trans (by decide)⟩

/-- C7: the notifier returns success exactly when the single HTTP exchange
yields a body that decodes to a JSON object whose `ok` field is truthy; every
failure (transport exception, undecodable body, non-object response, or a
response without a truthy `ok`) returns `false` together with a diagnostic
(the `description` field, the exception text, or the caught
`AttributeError`), never an uncaught exception.  The model applies the
network oracle exactly once — there are no retries. -/
theorem c7_notifier_success_contract :
    ∀ (bot chat msg : String) (tid : Option String) (loads : String → Except String Json)
      (net : PostBody → HttpResponse),
      ((send_telegram_message bot chat msg tid loads net).success = true ↔
        (∃ s fields, net (telegram_post_body chat msg tid) = HttpResponse.body s ∧
          loads s = Except.ok (Json.obj fields) ∧
          pyTruthy ((fields.lookup "ok").getD Json.null) = true)) ∧
      ((send_telegram_message bot chat msg tid loads net).success = false →
        (send_telegram_message bot chat msg tid loads net).diag.isSome = true) := by
  intro bot chat msg tid loads net
  cases hnet : net (telegram_post_body chat msg tid) with
  | exn m => constructor <;> simp [send_telegram_message, hnet]
  | body s =>
    cases hload : loads s with
    | error m => constructor <;> simp [send_telegram_message, hnet, hload]
    | ok j =>
      cases j with
      | obj fields =>
        constructor
        · simp only [send_telegram_message, hnet, hload]
          split <;> rename_i hok <;> simp [hnet, hload, hok]
        · simp only [send_telegram_message, hnet, hload]
          split <;> simp
      | null => constructor <;> simp [send_telegram_message, hnet, hload]
      | bool b => constructor <;> simp [send_telegram_message, hnet, hload]
      | num n => constructor <;> simp [send_telegram_message, hnet, hload]
      | str t => constructor <;> simp [send_telegram_message, hnet, hload]
      | arr xs => constructor <;> simp [send_telegram_message, hnet, hload]

theorem c7_notifier_success_contract_witness :
    (send_telegram_message "B" "C" "m" none loadsOkTrue netRespBody).success = true ∧
    (send_telegram_message "B" "C" "m" none (fun _ => Except.error "bad json")
        (fun _ => HttpResponse.exn "conn refused")).diag.isSome = true :=
  ⟨(c7_notifier_success_contract "B" "C" "m" none loadsOkTrue netRespBody).1.mpr
      ⟨"resp", [("ok", Json.bool true)], rfl, rfl, rfl⟩,
   (c7_notifier_success_contract "B" "C" "m" none (fun _ => Except.error "bad json")
      (fun _ => HttpResponse.exn "conn refused")).2 (by rfl)⟩

/-- C8: the process exits 0 exactly when the formatted message is built and
the delivery succeeds; every early termination (missing required variable,
unknown event, uncaught formatter exception) exits 1 without attempting the
HTTP call, and a completed run attempts exactly one HTTP call and exits 0 or
1 according to the notifier's result. -/
theorem c8_exit_code_contract :
    ∀ (env : Env) (loads : String → Except String Json) (net : PostBody → HttpResponse),
      ((mainRun env loads net).exitCode = 0 ↔
        (∃ req, mainRequest env loads = Except.ok req ∧
          (send_telegram_message req.bot_token req.chat_id req.message req.thread_id loads
            net).success = true)) ∧
      (∀ e, mainRequest env loads = Except.error e → mainRun env loads net = ⟨1, false⟩) ∧
      (∀ req, mainRequest env loads = Except.ok req →
        mainRun env loads net =
          ⟨if (send_telegram_message req.bot_token req.chat_id req.message req.thread_id
              loads net).success then 0 else 1, true⟩) := by
  intro env loads net
  refine ⟨?_, ?_, ?_⟩
  · cases h : mainRequest env loads with
    | error e => simp [mainRun, h]
    | ok req =>
      cases hsucc : (send_telegram_message req.bot_token req.chat_id req.message
          req.thread_id loads net).success <;>
        simp [mainRun, h, hsucc]
  · intro e he
    simp [mainRun, he]
  · intro req hreq
    simp [mainRun, hreq]

theorem c8_exit_code_contract_witness :
    mainRun (fun _ => none) (fun s => Except.error s) (fun _ => HttpResponse.exn "down") =
      ⟨1, false⟩ ∧
    mainRun sampleIssueEnv loadsOkTrue netRespBody = ⟨0, true⟩ := by
  constructor
  · exact (c8_exit_code_contract (fun _ => none) (fun s => Except.error s)
      (fun _ => HttpResponse.exn "down")).2.1 (EarlyExit.missingVar "TELEGRAM_BOT_TOKEN")
      (by rfl)
  · have h := (c8_exit_code_contract sampleIssueEnv loadsOkTrue netRespBody).2.2
      ⟨"B", "C", format_issue_message "octo/repo" "alice" "5" "T" "http://u" "opened", none⟩
      (by rfl)
    exact h.trans (by rfl)

/-- C10: a required environment variable set to the empty string behaves
exactly like an absent one — `get_env_var` terminates the run with the
missing-variable exit — and in the classifier, setting `EVENT_TYPE` or any
event-presence variable to the empty string classifies identically to
leaving it unset (an empty value is falsy and selects no branch). -/
theorem c10_empty_env_var_is_absent :
    (∀ (env : Env) (name : String), env name = some "" →
      getRequired env name = Except.error (EarlyExit.missingVar name)) ∧
    (∀ (env : Env) (name : String), env name = none →
      getRequired env name = Except.error (EarlyExit.missingVar name)) ∧
    (∀ (env : Env) (name : String),
      name ∈ ["EVENT_TYPE", "PR_NUMBER", "ISSUE_NUMBER", "PUSH_BRANCH", "WORKFLOW_NAME"] →
      classify (updateEnv env name (some "")) = classify (updateEnv env name none)) := by
  refine ⟨?_, ?_, ?_⟩
  · intro env name h
    simp [getRequired, h]
  · intro env name h
    simp [getRequired, h]
  · intro env name hmem
    simp only [List.mem_cons, List.mem_singleton, List.not_mem_nil, or_false] at hmem
    rcases hmem with rfl | rfl | rfl | rfl | rfl <;>
      simp [classify, updateEnv, truthy]

theorem c10_empty_env_var_is_absent_witness :
    getRequired (fun _ => some "") "TELEGRAM_BOT_TOKEN" =
      Except.error (EarlyExit.missingVar "TELEGRAM_BOT_TOKEN") ∧
    classify (updateEnv (fun _ => none) "PR_NUMBER" (some "")) =
      classify (updateEnv (fun _ => none) "PR_NUMBER" none) :=
  ⟨c10_empty_env_var_is_absent.1 (fun _ => some "") "TELEGRAM_BOT_TOKEN" rfl,
   c10_empty_env_var_is_absent.2.2 (fun _ => none) "PR_NUMBER" (by decide)⟩

end TelegramNotify
